import Mathlib

/-!
Verification of the dynamic-pricing subsystem of the Kalpana AI backend
(`Agents/agents/pricing_agent.py` and `Agents/agents/market_intelligence.py`),
embedded shallowly: Python floats become exact rationals (`ℚ`), dictionaries
become association lists, fallible external calls become explicit `Option`
parameters, and `try/except` bodies become `Except`-valued cores with a
total wrapper.
-/

/-! ## String helpers (Python `in`, `.lower()`, `' '.join`) -/

/-- Is `pat` a contiguous sublist of the given list (Python `pat in s`)? -/
def infixOfCharList (pat : List Char) : List Char → Bool
  | [] => pat.isEmpty
  | c :: rest => pat.isPrefixOf (c :: rest) || infixOfCharList pat rest

/-- Python substring test `pat in s`. -/
def strContains (s pat : String) : Bool :=
  infixOfCharList pat.toList s.toList

/-- Python `str.lower()` (ASCII, as all keyword tables are ASCII). -/
def strLower (s : String) : String := ⟨s.toList.map Char.toLower⟩

/-- Python `round(x, 2)` on exact rationals (half-up at the third decimal;
the source rounds binary floats, which never sit exactly on a tie). -/
def round2 (q : ℚ) : ℚ := (⌊q * 100 + 1 / 2⌋ : ℤ) / 100

/-- Python `int()` truncation toward zero. -/
def ratTruncToInt (q : ℚ) : ℤ := if 0 ≤ q then ⌊q⌋ else -⌊-q⌋

/-- Python `f"{x:.2f}"` rendering used only inside diagnostic messages. -/
def fmt2 (q : ℚ) : String :=
  let cents : ℤ := ⌊q * 100 + 1 / 2⌋
  let whole := cents / 100
  let frac := (cents % 100).natAbs
  toString whole ++ "." ++ (if frac < 10 then "0" else "") ++ toString frac

/-! ## Data model

`StoryOutput` is the storyteller/narrative payload consumed by the pricing
agent (`storyteller_output` dict): `story_title`, `image_prompts`,
`cultural_elements`, and `overview.region`. -/

structure StoryOutput where
  story_title : String := ""
  image_prompts : List String := []
  cultural_elements : List String := []
  region : String := ""
deriving Repr, DecidableEq

/-- One category record of the market cache. The `range` and `avg_markup`
fields are `Option`-valued: `none` models a record whose field is missing or
not of the expected shape (in Python such a record makes
`market_data['range']` unpacking or comparisons raise, which the validator
catches). Records from the built-in seed tables always carry `some`. -/
structure CategoryMarketData where
  range : Option (ℚ × ℚ)
  avg_markup : Option ℚ
  demand : String
  trend_score : ℤ
  trend_direction : String
  last_updated : Option String
deriving Repr, DecidableEq

/-- Seasonal-trend entry: `{score, multiplier, active}`. -/
structure SeasonalEntry where
  score : ℤ
  multiplier : ℚ
  active : Bool
deriving Repr, DecidableEq

/-- Trending-craft entry `{category, score, keyword}`. -/
structure TrendingEntry where
  category : String
  score : ℤ
  keyword : String
deriving Repr, DecidableEq

/-- The `MarketIntelligence` cache aggregate (`self.cache`). -/
structure MarketCache where
  last_updated : Option String
  categories : List (String × CategoryMarketData)
  regional_trends : List (String × ℤ)
  seasonal_trends : List (String × SeasonalEntry)
  trending_crafts : List TrendingEntry
deriving Repr, DecidableEq

/-! ## Weighted price calculator (`calculate_price`, steps 4–6) -/

/-- `combined_score = weighted_heritage + weighted_complexity + weighted_market`
with weights 0.3 / 0.4 / 0.3 (pricing_agent.py lines 166–180). -/
def combined_score (heritage complexity market : ℚ) : ℚ :=
  heritage * 0.3 + complexity * 0.4 + market * 0.3

/-- `artisan_markup = base_markup + complexity_bonus + heritage_bonus + market_bonus`
(pricing_agent.py lines 184–189). -/
def artisan_markup (heritage complexity market : ℚ) : ℚ :=
  250.0 + complexity * 25.0 + heritage * 20.0 + market * 15.0

/-- `price_multiplier = 1.0 + combined_score / 20.0` (line 192). -/
def price_multiplier (heritage complexity market : ℚ) : ℚ :=
  1.0 + combined_score heritage complexity market / 20.0

/-- Pre-validation `suggested_price = artisan_markup * price_multiplier`
(line 193); the spec calls this `rawPrice`. -/
def raw_price (heritage complexity market : ℚ) : ℚ :=
  artisan_markup heritage complexity market * price_multiplier heritage complexity market

/-- Pre-validation range `(suggested_price * 0.9, suggested_price * 1.1)`
(lines 207–208). -/
def pre_validation_range (heritage complexity market : ℚ) : ℚ × ℚ :=
  (raw_price heritage complexity market * 0.9, raw_price heritage complexity market * 1.1)

/-! ## Signal scorers -/

/-- Religious/festival keywords (`_analyze_heritage_value`, line 280). -/
def religious_keywords : List String :=
  ["religious", "spiritual", "temple", "worship", "deity", "ganesha", "krishna",
   "durga", "diwali", "holi", "festival"]

/-- Rare/endangered technique names (line 286). -/
def rare_techniques : List String :=
  ["kutch pottery", "manjusha art", "kalamkari", "warli", "madhubani"]

/-- `_analyze_heritage_value`: scans `" ".join(image_prompts) + " " + story_title`
(lowercased) for keyword classes, plus `overview.region`; capped at 10
(pricing_agent.py lines 267–299). Note the description is not an input and the
fetched `cultural_elements` are never used by this scorer. -/
def analyze_heritage_value (storyteller_output : StoryOutput) : ℚ :=
  let story_text := String.intercalate " " storyteller_output.image_prompts ++ " " ++
    storyteller_output.story_title
  let story_text_lower := strLower story_text
  let score : ℚ := 0.0
  let score := if religious_keywords.any (fun k => strContains story_text_lower k)
    then score + 3.0 else score
  let score := if rare_techniques.any (fun t => strContains story_text_lower (strLower t))
    then score + 4.0 else score
  let overview_region := strLower storyteller_output.region
  let score := if strContains overview_region "rajasthan" || strContains overview_region "kutch"
      || strContains overview_region "gujarat"
    then score + 2.0 else score
  let score := if strContains story_text_lower "generational" || strContains story_text_lower "traditional"
    then score + 1.0 else score
  min 10.0 score

/-- `_heuristic_complexity_analysis` (lines 418–444): the deterministic
fallback complexity scorer. -/
def heuristic_complexity_analysis (product_description : String)
    (storyteller_output : StoryOutput) : ℚ :=
  let score : ℚ := 5.0
  let desc_lower := strLower product_description
  let score := if ["hand-painted", "handpainted", "hand painted"].any
      (fun w => strContains desc_lower w) then score + 1.5 else score
  let score := if ["intricate", "detailed", "elaborate"].any
      (fun w => strContains desc_lower w) then score + 1.0 else score
  let score := if ["multi-layered", "multi-colored", "multicolored"].any
      (fun w => strContains desc_lower w) then score + 1.0 else score
  let score := if ["peacock", "lotus", "floral"].any
      (fun w => strContains desc_lower w) then score + 1.0 else score
  let score := if storyteller_output.cultural_elements.length > 3 then score + 1.0 else score
  let story_text := strLower (String.intercalate " " storyteller_output.image_prompts)
  let score := if ["hours", "days", "weeks", "time-consuming"].any
      (fun w => strContains story_text w) then score + 1.0 else score
  min 10.0 (max 1.0 score)

/-- Advanced-technique keywords scanned by `_analyze_complexity` (lines 367–381). -/
def advanced_techniques : List String :=
  ["hand_painted", "hand painted", "handpainted", "hand-painted",
   "embroidery", "embroidered",
   "filigree",
   "inlay_work", "inlay work", "inlay",
   "damascene",
   "meenakari", "minakari",
   "zardozi", "zardozi work",
   "block print", "block printing",
   "tie dye", "bandhani", "tie-dye",
   "kalamkari",
   "warli", "madhubani", "pattachitra",
   "peacock", "lotus", "geometric patterns",
   "intricate", "detailed", "multi-layered"]

/-- The technique-scan loop of `_analyze_complexity` (lines 383–395):
number of advanced-technique keywords present in
`desc.lower() + ' ' + ' '.join(image_prompts).lower() + ' ' + ' '.join(lowered cultural_elements)`,
each worth +0.5. -/
def technique_count (product_description : String) (storyteller_output : StoryOutput) : ℕ :=
  let desc_lower := strLower product_description
  let story_text := strLower (String.intercalate " " storyteller_output.image_prompts)
  let cultural_elements := storyteller_output.cultural_elements.map strLower
  let full_text := desc_lower ++ " " ++ story_text ++ " " ++ String.intercalate " " cultural_elements
  advanced_techniques.countP (fun t => strContains full_text t)

/-- `_analyze_complexity` (lines 301–416). The external generative-model call
is a parameter: `none` models the call raising (whole scorer falls back to the
heuristic, no technique pass); `some none` models a reply from which no number
could be extracted (heuristic base, then technique pass); `some (some n)`
models a reply whose first extracted number is `n` (clamped to [1,10], then
technique pass). -/
def analyze_complexity (product_description : String) (storyteller_output : StoryOutput)
    (model_reply : Option (Option ℚ)) : ℚ :=
  match model_reply with
  | none => heuristic_complexity_analysis product_description storyteller_output
  | some extracted =>
    let base_score := match extracted with
      | some n => max 1.0 (min 10.0 n)
      | none => heuristic_complexity_analysis product_description storyteller_output
    let technique_bonus : ℚ :=
      (technique_count product_description storyteller_output : ℚ) * 0.5
    let technique_bonus := min 3.0 technique_bonus
    min 10.0 (base_score + technique_bonus)

/-- Region → demand weight table of `_analyze_market_demand` (lines 456–466),
in source (insertion) order; the loop takes the first region name that is a
substring of the narrative region. -/
def regional_demand : List (String × ℚ) :=
  [("rajasthan", 0.9), ("gujarat", 0.85), ("madhya pradesh", 0.8), ("kerala", 0.75),
   ("karnataka", 0.75), ("west bengal", 0.8), ("odisha", 0.7), ("tamil nadu", 0.75),
   ("uttar pradesh", 0.8)]

/-- Manual seasonal table used when Market Intelligence is unavailable
(lines 498–502): `(season, multiplier, months)`, first matching month wins. -/
def seasonal_trends_fallback : List (String × ℚ × List ℕ) :=
  [("diwali", 1.3, [10, 11]), ("wedding_season", 1.2, [11, 12, 1, 2]), ("holi", 1.1, [3])]

/-- `MarketIntelligence.get_category_multiplier` (market_intelligence.py
lines 438–457): maps the cached `trend_score` to a multiplier. -/
def get_category_multiplier (cache : MarketCache) (category : String) : ℚ :=
  match List.lookup category cache.categories with
  | none => 1.0
  | some rec =>
    if rec.trend_score > 80 then 1.2
    else if rec.trend_score > 65 then 1.15
    else if rec.trend_score > 50 then 1.05
    else if rec.trend_score > 35 then 1.0
    else if rec.trend_score > 20 then 0.95
    else 0.9

/-- `MarketIntelligence.get_active_seasonal_multiplier` (lines 459–470):
maximum multiplier among active seasonal entries, else 1.0. -/
def get_active_seasonal_multiplier (cache : MarketCache) : ℚ :=
  cache.seasonal_trends.foldl
    (fun m p => if p.2.active then max m p.2.multiplier else m) 1.0

/-- Category-keyword table of `_detect_craft_category` (pricing_agent.py
lines 624–648), in source order; first matching row wins, default `pottery`. -/
def category_keyword_table : List (String × List String) :=
  [("pottery", ["pot", "pottery", "clay", "ceramic", "terracotta"]),
   ("embroidery", ["embroidery", "embroidered", "stitch", "needlework", "zardozi"]),
   ("jewelry", ["jewelry", "jewellery", "necklace", "earring", "bangle"]),
   ("textile", ["textile", "fabric", "cloth", "saree", "dupatta", "weaving"]),
   ("woodwork", ["wood", "wooden", "carving", "carved"]),
   ("metalwork", ["metal", "brass", "copper", "silver", "gold", "filigree"]),
   ("painting", ["painting", "painted", "warli", "madhubani", "pattachitra"]),
   ("leather", ["leather", "hide", "skin"])]

/-- `_detect_craft_category`: scans `desc.lower() + ' ' + ' '.join(cultural_elements).lower()`
through the ordered keyword table; returns `pottery` when nothing matches. -/
def detect_craft_category (product_description : String)
    (storyteller_output : StoryOutput) : String :=
  let combined_text := strLower product_description ++ " " ++
    strLower (String.intercalate " " storyteller_output.cultural_elements)
  match category_keyword_table.find?
      (fun row => row.2.any (fun w => strContains combined_text w)) with
  | some row => row.1
  | none => "pottery"

/-- `_analyze_market_demand` (lines 446–514): regional base score, then the
cache trend/seasonal multipliers when Market Intelligence is present
(`market_intel`), else the manual month-based seasonal table; capped at 10. -/
def analyze_market_demand (product_description : String) (storyteller_output : StoryOutput)
    (market_intel : Option MarketCache) (current_month : ℕ) : ℚ :=
  let region := strLower storyteller_output.region
  let base_score : ℚ :=
    match regional_demand.find? (fun p => strContains region p.1) with
    | some p => p.2 * 10
    | none => 5.0
  let base_score :=
    match market_intel with
    | some cache =>
      let category := detect_craft_category product_description storyteller_output
      let base_score := base_score * get_category_multiplier cache category
      let seasonal_multiplier := get_active_seasonal_multiplier cache
      if seasonal_multiplier > 1.0 then base_score * seasonal_multiplier else base_score
    | none =>
      match seasonal_trends_fallback.find? (fun p => p.2.2.contains current_month) with
      | some p => base_score * p.2.1
      | none => base_score
  min 10.0 base_score

/-- `_generate_justification` (lines 592–622). -/
def generate_justification (heritage_score complexity_score market_score : ℚ)
    (storyteller_output : StoryOutput) : String :=
  let parts := ["Suggested price based on:"]
  let parts := parts ++
    (if heritage_score ≥ 7 then ["High cultural/heritage significance."]
     else if heritage_score ≥ 4 then ["Moderate cultural/heritage significance."] else [])
  let parts := parts ++
    (if complexity_score ≥ 7 then ["High craft complexity and time investment."]
     else if complexity_score ≥ 4 then ["Moderate craft complexity."] else [])
  let parts := parts ++
    (if market_score ≥ 7 then ["High current market demand."]
     else if market_score ≥ 4 then ["Moderate market demand."] else [])
  let parts := parts ++
    (if storyteller_output.cultural_elements ≠ [] then
      ["Includes cultural elements: " ++
        String.intercalate ", " (storyteller_output.cultural_elements.take 2) ++ "."]
     else [])
  let parts := parts ++
    (if storyteller_output.story_title ≠ "" then
      ["Story theme: \x27" ++ storyteller_output.story_title ++ "\x27."] else [])
  String.intercalate " " parts

/-! ## Price validator (`_validate_with_market_cache`, lines 650–737) -/

/-- `ValidationResult` (the dict returned by `_validate_with_market_cache`). -/
structure ValidationResult where
  category : String
  validated : Bool
  original_price : ℚ
  adjusted_price : ℚ
  adjustment_reason : String
  message : String
deriving Repr, DecidableEq

/-- Body of the validator's `try:` block. An `Except.error` models an
exception escaping the body — here, a cache record whose `range` or
`avg_markup` field is missing/malformed (the in-body staleness check of
lines 678–685 has its own `except: pass` and only logs, so it is a no-op). -/
def validate_core (suggested_price : ℚ) (product_description : String)
    (storyteller_output : StoryOutput) (market_cache : List (String × CategoryMarketData)) :
    Except String ValidationResult :=
  let category := detect_craft_category product_description storyteller_output
  match List.lookup category market_cache with
  | none =>
    .ok ⟨category, false, suggested_price, suggested_price, "no_market_data",
      "No market data available for validation"⟩
  | some market_data =>
    match market_data.range with
    | none => .error "cannot unpack market range"
    | some (min_market, max_market) =>
      match market_data.avg_markup with
      | none => .error "avg_markup missing"
      | some _ =>
        if suggested_price < min_market then
          let adjusted_price := min_market * 1.1
          .ok ⟨category, true, suggested_price, adjusted_price, "below_market_minimum",
            "Price adjusted from ₹" ++ fmt2 suggested_price ++ " to ₹" ++
              fmt2 adjusted_price ++ " to match market floor"⟩
        else if suggested_price > max_market * 1.2 then
          let adjusted_price := max_market
          .ok ⟨category, true, suggested_price, adjusted_price, "above_market_maximum",
            "Price adjusted from ₹" ++ fmt2 suggested_price ++ " to ₹" ++
              fmt2 adjusted_price ++ " to match market ceiling"⟩
        else
          .ok ⟨category, true, suggested_price, suggested_price, "within_market_range",
            "Price validated against " ++ category ++ " market data"⟩

/-- `_validate_with_market_cache`: the `try/except` wrapper — on any
exception from the body it returns the original price with reason
`validation_error` (lines 728–737). -/
def validate_with_market_cache (suggested_price : ℚ) (product_description : String)
    (storyteller_output : StoryOutput) (market_cache : List (String × CategoryMarketData)) :
    ValidationResult :=
  match validate_core suggested_price product_description storyteller_output market_cache with
  | .ok r => r
  | .error e =>
    ⟨"Unknown", false, suggested_price, suggested_price, "validation_error",
      "Validation error: " ++ e⟩

/-! ## Market Intelligence (`market_intelligence.py`) -/

/-- Keys of `craft_keywords` in source (insertion) order (lines 33–42);
`update_market_cache` iterates these. -/
def craft_keyword_names : List String :=
  ["pottery", "embroidery", "jewelry", "textile", "woodwork", "metalwork",
   "painting", "leather"]

/-- Keys of `regional_keywords` in source order (lines 45–54); the refresh
cycle updates only the first three. -/
def regional_keyword_names : List String :=
  ["rajasthan", "gujarat", "kerala", "west bengal", "madhya pradesh",
   "uttar pradesh", "karnataka", "tamil nadu"]

/-- `seasonal_keywords` (lines 57–63). -/
def seasonal_keywords : List String :=
  ["diwali gifts", "wedding gifts india", "holi colors", "raksha bandhan gifts",
   "christmas decorations india"]

/-- A fresh seed record of `_get_default_cache` (all seeded records share
demand-independent trend defaults). -/
def defaultCategoryRecord (lo hi avg : ℚ) (demand now : String) : CategoryMarketData :=
  ⟨some (lo, hi), some avg, demand, 50, "stable", some now⟩

/-- `MarketIntelligence._get_default_cache` (lines 94–167); `now` stands for
`datetime.now().isoformat()` stamped on each seeded record. -/
def get_default_cache (now : String) : MarketCache :=
  { last_updated := none
    categories :=
      [("pottery", defaultCategoryRecord 100 400 200.0 "medium" now),
       ("embroidery", defaultCategoryRecord 200 600 350.0 "high" now),
       ("jewelry", defaultCategoryRecord 300 1000 500.0 "very_high" now),
       ("textile", defaultCategoryRecord 150 500 300.0 "high" now),
       ("woodwork", defaultCategoryRecord 150 450 275.0 "medium" now),
       ("metalwork", defaultCategoryRecord 250 700 425.0 "medium" now),
       ("painting", defaultCategoryRecord 250 800 475.0 "high" now),
       ("leather", defaultCategoryRecord 150 450 275.0 "medium" now)]
    regional_trends := []
    seasonal_trends := []
    trending_crafts := [] }

/-- `DynamicPricingAgent._init_market_cache` (pricing_agent.py lines 69–125):
the agent's fallback validator cache when Market Intelligence failed to
initialize. The source dicts carry no `trend_score`/`trend_direction`; those
fields are never read on this path, recorded here with the
`get`-defaults (50 / stable) used by every reader. -/
def init_market_cache (now : String) : List (String × CategoryMarketData) :=
  [("pottery", defaultCategoryRecord 100 400 200.0 "high" now),
   ("embroidery", defaultCategoryRecord 200 600 350.0 "high" now),
   ("jewelry", defaultCategoryRecord 300 1000 500.0 "very_high" now),
   ("textile", defaultCategoryRecord 150 500 300.0 "high" now),
   ("woodwork", defaultCategoryRecord 150 450 250.0 "medium" now),
   ("metalwork", defaultCategoryRecord 250 700 400.0 "high" now),
   ("painting", defaultCategoryRecord 250 800 450.0 "high" now),
   ("leather", defaultCategoryRecord 150 450 280.0 "medium" now)]

/-- Trend data produced by `fetch_craft_trends`. -/
structure TrendData where
  trend_score : ℤ
  trend_direction : String
deriving Repr, DecidableEq

/-- Mean of a rational list (pandas `.mean()`), 0 on empty. -/
def listMean (l : List ℚ) : ℚ := l.sum / l.length

/-- `MarketIntelligence.fetch_craft_trends` (lines 169–218). The provider is
modelled by `avail` (`self.pytrends` is not `None`) and `series`
(`none` models a raised provider error or an empty interest dataframe, both
of which yield the `{50, stable}` default; `some l` the interest series).
Never fails: every provider error is caught inside. -/
def fetch_craft_trends (avail : Bool) (series : String → Option (List ℚ))
    (category : String) : TrendData :=
  if !avail then ⟨50, "stable"⟩
  else
    match series category with
    | none => ⟨50, "stable"⟩
    | some l =>
      if l.isEmpty then ⟨50, "stable"⟩
      else
        let recent_avg := listMean (l.drop (l.length - 4))
        let overall_avg := listMean l
        let trend_score := if recent_avg > 0 then ratTruncToInt recent_avg else 50
        let trend_direction :=
          if recent_avg > overall_avg * 1.15 then "rising"
          else if recent_avg < overall_avg * 0.85 then "falling"
          else "stable"
        ⟨trend_score, trend_direction⟩

/-- `MarketIntelligence.fetch_regional_trends` (lines 220–248): defaults to
50 when the provider is absent, errors, or returns no rows. -/
def fetch_regional_trends (avail : Bool) (regional_series : String → Option (List ℚ))
    (region : String) : ℤ :=
  if !avail then 50
  else
    match regional_series region with
    | none => 50
    | some l => if l.isEmpty then 50 else ratTruncToInt (listMean l)

/-- Score → multiplier bands of `fetch_seasonal_trends` (lines 271–279). -/
def seasonalMultiplierOf (score : ℤ) : ℚ :=
  if score > 70 then 1.3 else if score > 50 then 1.2 else if score > 30 then 1.1 else 1.0

/-- Insert-or-assign on an association list (Python `d[k] = v`). -/
def alSet {α : Type} (l : List (String × α)) (key : String) (v : α) : List (String × α) :=
  match l with
  | [] => [(key, v)]
  | (k, w) :: rest => if k == key then (k, v) :: rest else (k, w) :: alSet rest key v

/-- `MarketIntelligence.fetch_seasonal_trends` (lines 250–293). `skw_scores`
models the per-keyword last-week mean interest (`none` = keyword column
absent); the outer `none` models a provider exception, which yields `{}`. -/
def fetch_seasonal_trends (avail : Bool)
    (skw_scores : Option (String → Option ℤ)) : List (String × SeasonalEntry) :=
  if !avail then []
  else
    match skw_scores with
    | none => []
    | some f =>
      (seasonal_keywords.take 5).foldl
        (fun acc kw =>
          match f kw with
          | none => acc
          | some score => alSet acc kw ⟨score, seasonalMultiplierOf score, score > 30⟩)
        []

/-- Replace the value at the first occurrence of `key` (in-place mutation of
an existing dict entry). -/
def updateEntry {α : Type} : List (String × α) → String → α → List (String × α)
  | [], _, _ => []
  | (k, w) :: rest, key, v => if k == key then (k, v) :: rest else (k, w) :: updateEntry rest key v

/-- One iteration of the category loop of `update_market_cache`
(lines 362–387) applied to the record of one category: store the fetched
trend fields, then widen `priceRangeHigh` by 10% on `rising` / narrow it
by 5% on `falling` (relative to the current stored value), and stamp
`last_updated`. A `false` flag models the `range` unpacking raising after
the trend fields were already mutated in place. -/
def applyTrendToRecord (t : TrendData) (now : String) (rec : CategoryMarketData) :
    Bool × CategoryMarketData :=
  let rec1 := { rec with trend_score := t.trend_score, trend_direction := t.trend_direction }
  match rec1.range with
  | none => (false, rec1)
  | some (min_price, max_price) =>
    let rec2 :=
      if t.trend_direction == "rising" then { rec1 with range := some (min_price, max_price * 1.1) }
      else if t.trend_direction == "falling" then { rec1 with range := some (min_price, max_price * 0.95) }
      else rec1
    (true, { rec2 with last_updated := some now })

/-- The category loop body for one category name: categories absent from the
cache are skipped (`if category in self.cache['categories']`). -/
def updateOneCategory (t : TrendData) (now : String)
    (cats : List (String × CategoryMarketData)) (category : String) :
    Bool × List (String × CategoryMarketData) :=
  match List.lookup category cats with
  | none => (true, cats)
  | some rec =>
    let (ok, rec2) := applyTrendToRecord t now rec
    (ok, updateEntry cats category rec2)

/-- The full category loop of `update_market_cache`: iterate the tracked
category names in order; an exception aborts the loop, keeping the mutations
made so far (the `false` flag). -/
def updateCategoriesLoop (trends : String → TrendData) (now : String) :
    List String → List (String × CategoryMarketData) →
    Bool × List (String × CategoryMarketData)
  | [], cats => (true, cats)
  | c :: rest, cats =>
    let (ok, cats2) := updateOneCategory (trends c) now cats c
    if ok then updateCategoriesLoop trends now rest cats2 else (false, cats2)

/-- `MarketIntelligence.update_market_cache` (lines 350–423). External data
is passed in: `avail`/`series` feed `fetch_craft_trends` per category,
`regional_series` feeds `fetch_regional_trends` for the first three tracked
regions, `skw_scores` feeds `fetch_seasonal_trends`, and `trending` stands
for the result of `get_trending_crafts` (which catches all its errors and
returns a list, `[]` on failure). Returns `false` with the cache untouched
when the provider is entirely unavailable (`self.pytrends is None`); an
exception inside the category loop (malformed record) also returns `false`,
keeping the mutations already made; otherwise completes, stamps the
aggregate `last_updated := now`, and returns `true` (`_save_cache` catches
its own errors and cannot fail the cycle). -/
def update_market_cache (avail : Bool) (series : String → Option (List ℚ))
    (regional_series : String → Option (List ℚ)) (skw_scores : Option (String → Option ℤ))
    (trending : List TrendingEntry) (now : String) (cache : MarketCache) :
    Bool × MarketCache :=
  if !avail then (false, cache)
  else
    let (ok, cats) :=
      updateCategoriesLoop (fetch_craft_trends avail series) now craft_keyword_names
        cache.categories
    if ok then
      let regional := (regional_keyword_names.take 3).foldl
        (fun acc r => alSet acc r (fetch_regional_trends avail regional_series r))
        cache.regional_trends
      (true,
        { cache with
            categories := cats
            regional_trends := regional
            seasonal_trends := fetch_seasonal_trends avail skw_scores
            trending_crafts := trending
            last_updated := some now })
    else (false, { cache with categories := cats })

/-! ## Pricing orchestrator (`calculate_price`, lines 127–265) -/

/-- `price_range` sub-dict of the result. -/
structure PriceRange where
  min : ℚ
  max : ℚ
deriving Repr, DecidableEq

/-- `market_validation` sub-dict of the result (lines 248–254). -/
structure MarketValidationInfo where
  category : String
  original_ai_price : ℚ
  adjusted_price : ℚ
  adjustment_reason : String
  validation_message : String
deriving Repr, DecidableEq

/-- `breakdown` sub-dict of the result (lines 255–262). -/
structure ScoreBreakdown where
  heritage_score : ℚ
  complexity_score : ℚ
  market_score : ℚ
  combined_score : ℚ
  base_price : ℚ
  price_multiplier : ℚ
deriving Repr, DecidableEq

/-- The result dict of `calculate_price` (lines 243–263). -/
structure PricingResult where
  suggested_price : ℚ
  price_range : PriceRange
  justification : String
  success_probability : ℚ
  market_validation : MarketValidationInfo
  breakdown : ScoreBreakdown
deriving Repr, DecidableEq

/-- The agent state read by `calculate_price`: `self.market_intel`
(`none` when Market Intelligence initialization failed) and
`self.market_cache` (the validator's category table). -/
structure AgentState where
  market_intel : Option MarketCache
  market_cache : List (String × CategoryMarketData)
deriving Repr, DecidableEq

/-- `DynamicPricingAgent.calculate_price` (lines 127–265). `model_reply` and
`current_month` parameterize the external generative-model call of the
complexity scorer and `datetime.now().month` of the market scorer;
`material_cost` is accepted and, as in the source, never used in the
computation. All emitted numeric fields are rounded to two decimals
(`round(x, 2)`). -/
def calculate_price (agent : AgentState) (product_description : String)
    (storyteller_output : StoryOutput) (model_reply : Option (Option ℚ))
    (current_month : ℕ) (material_cost : ℚ) : PricingResult :=
  let heritage_score := analyze_heritage_value storyteller_output
  let complexity_score := analyze_complexity product_description storyteller_output model_reply
  let market_score :=
    analyze_market_demand product_description storyteller_output agent.market_intel current_month
  let cs := combined_score heritage_score complexity_score market_score
  let pm := price_multiplier heritage_score complexity_score market_score
  let suggested_price := raw_price heritage_score complexity_score market_score
  let justification :=
    generate_justification heritage_score complexity_score market_score storyteller_output
  let validation_result :=
    validate_with_market_cache suggested_price product_description storyteller_output
      agent.market_cache
  let final_price := validation_result.adjusted_price
  let final_range_lower := final_price * 0.9
  let final_range_upper := final_price * 1.1
  let success_probability := min 95.0 (max 50.0 (50.0 + cs * 4.5))
  let _ := material_cost
  { suggested_price := round2 final_price
    price_range := ⟨round2 final_range_lower, round2 final_range_upper⟩
    justification := justification
    success_probability := round2 success_probability
    market_validation :=
      ⟨validation_result.category, round2 validation_result.original_price,
        round2 validation_result.adjusted_price, validation_result.adjustment_reason,
        validation_result.message⟩
    breakdown :=
      ⟨round2 heritage_score, round2 complexity_score, round2 market_score, round2 cs,
        round2 250.0, round2 pm⟩ }

/-! ## Concrete sample data (used by witnesses and counterexamples) -/

/-- The end-to-end scenario-1 narrative: region Rajasthan, the scenario
keywords present in the narrative prompts, no complexity hint. -/
def scenarioStory : StoryOutput :=
  { story_title := ""
    image_prompts := ["peacock, lotus, Jaipur, traditional"]
    cultural_elements := []
    region := "Rajasthan" }

/-- An empty narrative payload. -/
def emptyStory : StoryOutput := {}

/-- A default-cache agent (Market Intelligence unavailable, validator cache
seeded by `_init_market_cache`). -/
def fallbackAgent : AgentState :=
  { market_intel := none, market_cache := init_market_cache "2025-01-01T00:00:00" }

/-- A cache with one malformed pottery record (its `range` field unusable). -/
def corruptCache : List (String × CategoryMarketData) :=
  [("pottery", ⟨none, some 200.0, "high", 50, "stable", none⟩)]

/-- A two-category table used to exercise the refresh loop body. -/
def twoCatTable : List (String × CategoryMarketData) :=
  [("pottery", defaultCategoryRecord 100 400 200.0 "medium" "t0"),
   ("textile", defaultCategoryRecord 150 500 300.0 "high" "t0")]

/-- The §3 data-model invariant on a category table: every record carries a
usable `(priceRangeLow, priceRangeHigh)` band (all seeded and
refresh-produced records do). -/
def categoriesWellFormed (cats : List (String × CategoryMarketData)) : Prop :=
  ∀ p ∈ cats, p.2.range.isSome = true

/-! ## Theorems -/

/-- C1: for every score triple, `calculate_price` computes
`combinedScore = 0.3·heritage + 0.4·complexity + 0.3·market`, a base markup
of `250 + 25·complexity + 20·heritage + 15·market`, a multiplier
`1 + combinedScore/20`, `rawPrice` = markup × multiplier, and a
pre-validation range of exactly `rawPrice·0.9` to `rawPrice·1.1`. -/
theorem weighted_calculator_formulas (heritage complexity market : ℚ) :
    combined_score heritage complexity market
      = 0.3 * heritage + 0.4 * complexity + 0.3 * market
    ∧ artisan_markup heritage complexity market
      = 250 + 25 * complexity + 20 * heritage + 15 * market
    ∧ price_multiplier heritage complexity market
      = 1 + combined_score heritage complexity market / 20
    ∧ raw_price heritage complexity market
      = artisan_markup heritage complexity market * price_multiplier heritage complexity market
    ∧ pre_validation_range heritage complexity market
      = (raw_price heritage complexity market * 0.9,
         raw_price heritage complexity market * 1.1) := by
  refine ⟨?_, ?_, ?_, rfl, rfl⟩ <;>
    simp only [combined_score, artisan_markup, price_multiplier] <;> ring

/-- C8: for scores in [0,10], the combined score lies in [0,10] and the
price multiplier in [1, 1.5]. -/
theorem score_and_multiplier_bounds (heritage complexity market : ℚ)
    (hh0 : 0 ≤ heritage) (hh1 : heritage ≤ 10)
    (hc0 : 0 ≤ complexity) (hc1 : complexity ≤ 10)
    (hm0 : 0 ≤ market) (hm1 : market ≤ 10) :
    (0 ≤ combined_score heritage complexity market
      ∧ combined_score heritage complexity market ≤ 10)
    ∧ (1 ≤ price_multiplier heritage complexity market
      ∧ price_multiplier heritage complexity market ≤ 1.5) := by
  simp only [price_multiplier, combined_score]
  norm_num
  constructor <;> constructor <;> linarith

/-- Witness for C8 at the triple (3, 4, 5). -/
theorem score_and_multiplier_bounds_witness :
    (0 ≤ combined_score 3 4 5 ∧ combined_score 3 4 5 ≤ 10)
    ∧ (1 ≤ price_multiplier 3 4 5 ∧ price_multiplier 3 4 5 ≤ 1.5) :=
  score_and_multiplier_bounds 3 4 5 (by norm_num) (by norm_num) (by norm_num)
    (by norm_num) (by norm_num) (by norm_num)

/-- C9: on [0,10] triples, `rawPrice` is monotonically non-decreasing in
each of heritage, complexity and market, the other two held fixed. -/
theorem raw_price_monotone (h₁ h₂ c₁ c₂ m₁ m₂ : ℚ)
    (hh₁0 : 0 ≤ h₁) (hh₁1 : h₁ ≤ 10) (hh₂0 : 0 ≤ h₂) (hh₂1 : h₂ ≤ 10)
    (hc₁0 : 0 ≤ c₁) (hc₁1 : c₁ ≤ 10) (hc₂0 : 0 ≤ c₂) (hc₂1 : c₂ ≤ 10)
    (hm₁0 : 0 ≤ m₁) (hm₁1 : m₁ ≤ 10) (hm₂0 : 0 ≤ m₂) (hm₂1 : m₂ ≤ 10) :
    (h₁ ≤ h₂ → raw_price h₁ c₁ m₁ ≤ raw_price h₂ c₁ m₁)
    ∧ (c₁ ≤ c₂ → raw_price h₁ c₁ m₁ ≤ raw_price h₁ c₂ m₁)
    ∧ (m₁ ≤ m₂ → raw_price h₁ c₁ m₁ ≤ raw_price h₁ c₁ m₂) := by
  refine ⟨fun hle => ?_, fun hle => ?_, fun hle => ?_⟩ <;>
    · rw [← sub_nonneg]
      simp only [raw_price, artisan_markup, price_multiplier, combined_score]
      nlinarith [mul_nonneg (sub_nonneg.2 hle) hc₁0, mul_nonneg (sub_nonneg.2 hle) hm₁0,
        mul_nonneg (sub_nonneg.2 hle) hh₁0, mul_nonneg (sub_nonneg.2 hle) hc₂0,
        mul_nonneg (sub_nonneg.2 hle) hm₂0, mul_nonneg (sub_nonneg.2 hle) hh₂0,
        mul_nonneg (sub_nonneg.2 hle) (sub_nonneg.2 hle)]

/-- Witness for C9: increasing each score from 2 to 7 at the triple
(2, 2, 2) does not decrease the raw price. -/
theorem raw_price_monotone_witness :
    (2 ≤ (7:ℚ) → raw_price 2 2 2 ≤ raw_price 7 2 2)
    ∧ (2 ≤ (7:ℚ) → raw_price 2 2 2 ≤ raw_price 2 7 2)
    ∧ (2 ≤ (7:ℚ) → raw_price 2 2 2 ≤ raw_price 2 2 7) :=
  raw_price_monotone 2 7 2 7 2 7 (by norm_num) (by norm_num) (by norm_num) (by norm_num)
    (by norm_num) (by norm_num) (by norm_num) (by norm_num) (by norm_num) (by norm_num)
    (by norm_num) (by norm_num)

/-- C4 counterexample: in the scenario — description containing
"peacock, lotus, Jaipur, traditional", those keywords also present in the
narrative prompts, no complexity hint, region "Rajasthan" — the heritage
score is 3 (region +2, traditional-lineage +1), not ≥ 6: the scorer reads
only the narrative text and none of those keywords is in its
religious/rare-technique tables. -/
theorem heritage_scenario_counterexample :
    strContains (strLower "Blue pot with peacock, lotus, Jaipur, traditional motifs")
      "peacock" = true
    ∧ strContains (strLower "Blue pot with peacock, lotus, Jaipur, traditional motifs")
      "lotus" = true
    ∧ strContains (strLower "Blue pot with peacock, lotus, Jaipur, traditional motifs")
      "jaipur" = true
    ∧ strContains (strLower "Blue pot with peacock, lotus, Jaipur, traditional motifs")
      "traditional" = true
    ∧ scenarioStory.region = "Rajasthan"
    ∧ analyze_heritage_value scenarioStory = 3
    ∧ ¬(6 ≤ analyze_heritage_value scenarioStory) := by
  have h3 : analyze_heritage_value scenarioStory = 3 := by
    simp +decide only [analyze_heritage_value, scenarioStory]
    norm_num
  refine ⟨by decide, by decide, by decide, by decide, rfl, h3, ?_⟩
  rw [h3]
  norm_num

/-- C4 (amended): any narrative whose region names Rajasthan gets a heritage
score of at least 2 (the high-heritage-region bonus); the description is not
an input of the heritage scorer, and the scenario keywords contribute at
most the +1 traditional-lineage bonus when present in the narrative text. -/
theorem heritage_region_bonus (story : StoryOutput)
    (hreg : strContains (strLower story.region) "rajasthan" = true) :
    2 ≤ analyze_heritage_value story := by
  unfold analyze_heritage_value
  simp only [hreg, Bool.true_or, if_true]
  split_ifs <;> norm_num [le_min_iff]

/-- Witness for C4 (amended) at the scenario narrative. -/
theorem heritage_region_bonus_witness :
    strContains (strLower scenarioStory.region) "rajasthan" = true
    ∧ 2 ≤ analyze_heritage_value scenarioStory :=
  ⟨by decide, heritage_region_bonus scenarioStory (by decide)⟩

/-- C10: category detection always returns one of the eight fixed category
names (defaulting to `pottery`), and against either built-in default cache
(the Market Intelligence seed table or the agent's fallback table) the
validator never answers `no_market_data`. -/
theorem detect_category_covered_by_default_cache (product_description : String)
    (storyteller_output : StoryOutput) :
    detect_craft_category product_description storyteller_output ∈ craft_keyword_names
    ∧ ∀ (p : ℚ) (now : String),
      (validate_with_market_cache p product_description storyteller_output
        (get_default_cache now).categories).adjustment_reason ≠ "no_market_data"
      ∧ (validate_with_market_cache p product_description storyteller_output
        (init_market_cache now)).adjustment_reason ≠ "no_market_data" := by
  have h1 : detect_craft_category product_description storyteller_output
      ∈ craft_keyword_names := by
    unfold detect_craft_category
    cases hf : List.find?
        (fun row => row.2.any (fun w => strContains
          (strLower product_description ++ " " ++
            strLower (String.intercalate " " storyteller_output.cultural_elements)) w))
        category_keyword_table with
    | none => simp [hf, craft_keyword_names]
    | some row =>
      have hmem := List.mem_of_find?_eq_some hf
      simp only [hf]
      fin_cases hmem <;> decide
  have h2 := h1
  simp only [craft_keyword_names, List.mem_cons, List.not_mem_nil, or_false] at h2
  refine ⟨h1, fun p now => ?_⟩
  constructor <;>
  · rcases h2 with h | h | h | h | h | h | h | h <;>
    · simp +decide [validate_with_market_cache, validate_core, h, get_default_cache,
        init_market_cache, defaultCategoryRecord, List.lookup]
      split_ifs <;> simp

/-- C2: against a cached category with band `(lo, hi)` the validator clamps
to `lo·1.1` with reason `below_market_minimum` when `rawPrice < lo`, to
exactly `hi` with reason `above_market_maximum` when `rawPrice > hi·1.2`,
and passes the price through with `within_market_range` otherwise; for a
category absent from the cache it passes the price through with
`no_market_data`. -/
theorem market_validator_cases (p : ℚ) (product_description : String)
    (storyteller_output : StoryOutput) (cache : List (String × CategoryMarketData)) :
    (List.lookup (detect_craft_category product_description storyteller_output) cache = none →
      (validate_with_market_cache p product_description storyteller_output cache).adjusted_price = p
      ∧ (validate_with_market_cache p product_description storyteller_output
          cache).adjustment_reason = "no_market_data")
    ∧ ∀ rec lo hi avg,
      List.lookup (detect_craft_category product_description storyteller_output) cache = some rec →
      rec.range = some (lo, hi) → rec.avg_markup = some avg →
      ((p < lo →
        (validate_with_market_cache p product_description storyteller_output
          cache).adjusted_price = lo * 1.1
        ∧ (validate_with_market_cache p product_description storyteller_output
            cache).adjustment_reason = "below_market_minimum")
      ∧ (¬p < lo → p > hi * 1.2 →
        (validate_with_market_cache p product_description storyteller_output
          cache).adjusted_price = hi
        ∧ (validate_with_market_cache p product_description storyteller_output
            cache).adjustment_reason = "above_market_maximum")
      ∧ (¬p < lo → ¬p > hi * 1.2 →
        (validate_with_market_cache p product_description storyteller_output
          cache).adjusted_price = p
        ∧ (validate_with_market_cache p product_description storyteller_output
            cache).adjustment_reason = "within_market_range")) := by
  constructor
  · intro hnone
    simp [validate_with_market_cache, validate_core, hnone]
  · intro rec lo hi avg hlk hr ha
    refine ⟨fun hlt => ?_, fun hge hgt => ?_, fun hge hle => ?_⟩
    · simp [validate_with_market_cache, validate_core, hlk, hr, ha, hlt]
    · simp [validate_with_market_cache, validate_core, hlk, hr, ha, hge, hgt]
    · simp [validate_with_market_cache, validate_core, hlk, hr, ha, hge, hle]

/-- Witness for C2: a ₹50 clay pot against the seeded pottery band (100–400)
is raised to 110 with `below_market_minimum`; an empty cache answers
`no_market_data` and passes ₹50 through. -/
theorem market_validator_cases_witness :
    ((validate_with_market_cache 50 "clay pot" emptyStory
        (init_market_cache "t0")).adjusted_price = 110
      ∧ (validate_with_market_cache 50 "clay pot" emptyStory
          (init_market_cache "t0")).adjustment_reason = "below_market_minimum")
    ∧ ((validate_with_market_cache 50 "clay pot" emptyStory []).adjusted_price = 50
      ∧ (validate_with_market_cache 50 "clay pot" emptyStory
          []).adjustment_reason = "no_market_data") := by
  constructor
  · have h := (market_validator_cases 50 "clay pot" emptyStory (init_market_cache "t0")).2
      (defaultCategoryRecord 100 400 200.0 "high" "t0") 100 400 200.0 rfl rfl rfl
    have h2 := h.1 (by norm_num)
    exact ⟨by rw [h2.1]; norm_num, h2.2⟩
  · exact (market_validator_cases 50 "clay pot" emptyStory []).1 rfl

/-- C6: the validator is a total function of its inputs; it returns the
`try:`-body result when that body succeeds and, whenever the body raises, it
recovers with the original price, reason `validation_error`, and a
diagnostic message — it never propagates the exception. -/
theorem validator_never_raises (p : ℚ) (product_description : String)
    (storyteller_output : StoryOutput) (cache : List (String × CategoryMarketData)) :
    (∀ r, validate_core p product_description storyteller_output cache = .ok r →
      validate_with_market_cache p product_description storyteller_output cache = r)
    ∧ ∀ e, validate_core p product_description storyteller_output cache = .error e →
      (validate_with_market_cache p product_description storyteller_output
        cache).adjusted_price = p
      ∧ (validate_with_market_cache p product_description storyteller_output
          cache).adjustment_reason = "validation_error"
      ∧ (validate_with_market_cache p product_description storyteller_output
          cache).message = "Validation error: " ++ e := by
  constructor
  · intro r hok
    simp [validate_with_market_cache, hok]
  · intro e herr
    simp [validate_with_market_cache, herr]

/-- Witness for C6 at a cache whose pottery record has an unusable `range`
field: the body raises and the wrapper passes ₹123 through with
`validation_error`. -/
theorem validator_never_raises_witness :
    (validate_with_market_cache 123 "" emptyStory corruptCache).adjusted_price = 123
    ∧ (validate_with_market_cache 123 "" emptyStory corruptCache).adjustment_reason
      = "validation_error"
    ∧ (validate_with_market_cache 123 "" emptyStory corruptCache).message
      = "Validation error: cannot unpack market range" :=
  (validator_never_raises 123 "" emptyStory corruptCache).2 "cannot unpack market range" rfl

lemma lookup_mem {α : Type} {cats : List (String × α)} {k : String} {v : α}
    (h : List.lookup k cats = some v) : (k, v) ∈ cats := by
  induction cats with
  | nil => simp [List.lookup] at h
  | cons p rest ih =>
    obtain ⟨a, b⟩ := p
    rw [List.lookup] at h
    cases he : k == a with
    | true =>
      simp only [he, Option.some.injEq] at h
      have hk : k = a := by simpa using he
      subst hk
      rw [← h]
      exact List.mem_cons_self _ _
    | false =>
      simp only [he] at h
      exact List.mem_cons_of_mem _ (ih h)

lemma lookup_updateEntry_self {α : Type} {cats : List (String × α)} {key : String} {v₀ : α}
    (v : α) (h : List.lookup key cats = some v₀) :
    List.lookup key (updateEntry cats key v) = some v := by
  induction cats with
  | nil => simp [List.lookup] at h
  | cons p rest ih =>
    obtain ⟨a, b⟩ := p
    rw [List.lookup] at h
    rw [updateEntry]
    cases he : a == key with
    | true =>
      have he2 : (key == a) = true := by
        simp only [beq_iff_eq] at he ⊢
        exact he.symm
      simp only [he, if_true, List.lookup, he2]
    | false =>
      have he2 : (key == a) = false := by
        rw [beq_eq_false_iff_ne] at he ⊢
        exact fun hk => he hk.symm
      simp only [he2] at h
      simp only [he, Bool.false_eq_true, if_false, List.lookup, he2]
      exact ih h

lemma lookup_updateEntry_ne {α : Type} (cats : List (String × α)) (key : String) (v : α)
    (k' : String) (hne : k' ≠ key) :
    List.lookup k' (updateEntry cats key v) = List.lookup k' cats := by
  induction cats with
  | nil => simp [updateEntry]
  | cons p rest ih =>
    obtain ⟨a, b⟩ := p
    rw [updateEntry]
    cases he : a == key with
    | true =>
      have ha : a = key := by simpa using he
      have he2 : (k' == a) = false := by
        rw [beq_eq_false_iff_ne, ha]
        exact hne
      simp only [he, if_true, List.lookup, he2]
    | false =>
      simp only [he, Bool.false_eq_true, if_false, List.lookup]
      cases hk : k' == a with
      | true => simp only [hk]
      | false =>
        simp only [hk]
        exact ih

lemma mem_updateEntry {α : Type} {cats : List (String × α)} {key : String} {v : α}
    {p : String × α} (h : p ∈ updateEntry cats key v) : p ∈ cats ∨ p = (key, v) := by
  induction cats with
  | nil => simp [updateEntry] at h
  | cons q rest ih =>
    obtain ⟨a, b⟩ := q
    rw [updateEntry] at h
    cases he : a == key with
    | true =>
      simp only [he, if_true, List.mem_cons] at h
      rcases h with h | h
      · right
        have : a = key := by simpa using he
        rw [h, this]
      · left
        exact List.mem_cons_of_mem _ h
    | false =>
      simp only [he, Bool.false_eq_true, if_false, List.mem_cons] at h
      rcases h with h | h
      · left
        simp [h]
      · rcases ih h with h' | h'
        · left
          exact List.mem_cons_of_mem _ h'
        · right
          exact h'

lemma applyTrendToRecord_ok (t : TrendData) (now : String) {rec : CategoryMarketData}
    {lo hi : ℚ} (h : rec.range = some (lo, hi)) :
    (applyTrendToRecord t now rec).1 = true
    ∧ (applyTrendToRecord t now rec).2.range.isSome = true := by
  simp only [applyTrendToRecord, h]
  split_ifs <;> simp

lemma updateOneCategory_wf (t : TrendData) (now : String)
    {cats : List (String × CategoryMarketData)} (c : String)
    (hwf : categoriesWellFormed cats) :
    (updateOneCategory t now cats c).1 = true
    ∧ categoriesWellFormed (updateOneCategory t now cats c).2 := by
  rw [updateOneCategory]
  cases hlk : List.lookup c cats with
  | none => exact ⟨rfl, hwf⟩
  | some rec =>
    have hmem := lookup_mem hlk
    have hrs : rec.range.isSome = true := hwf _ hmem
    obtain ⟨⟨lo, hi⟩, hr⟩ := Option.isSome_iff_exists.mp hrs
    have hok := applyTrendToRecord_ok t now hr
    rcases happ : applyTrendToRecord t now rec with ⟨ok, rec2⟩
    rw [happ] at hok
    simp only at hok
    simp only [happ, hok.1]
    refine ⟨trivial, fun p hp => ?_⟩
    rcases mem_updateEntry hp with h' | h'
    · exact hwf _ h'
    · rw [h']
      exact hok.2

lemma updateCategoriesLoop_wf (trends : String → TrendData) (now : String)
    (names : List String) (cats : List (String × CategoryMarketData))
    (hwf : categoriesWellFormed cats) :
    (updateCategoriesLoop trends now names cats).1 = true
    ∧ categoriesWellFormed (updateCategoriesLoop trends now names cats).2 := by
  induction names generalizing cats with
  | nil => exact ⟨rfl, hwf⟩
  | cons c rest ih =>
    have h1 := updateOneCategory_wf (trends c) now c hwf
    rcases he : updateOneCategory (trends c) now cats c with ⟨ok, cats2⟩
    rw [he] at h1
    simp only at h1
    rw [updateCategoriesLoop]
    simp only [he, h1.1, if_true]
    exact ih cats2 h1.2

/-- C3: the refresh routine returns `false` exactly when the interest
provider is entirely unreachable before any data is obtained
(`self.pytrends is None`); otherwise — per-category provider errors
included, since `fetch_craft_trends` converts every such error to the
`{50, stable}` default — the cycle completes, stamps the aggregate
`last_updated`, and returns `true`. -/
theorem refresh_reports_failure_only_when_provider_unreachable (avail : Bool)
    (series regional_series : String → Option (List ℚ))
    (skw_scores : Option (String → Option ℤ)) (trending : List TrendingEntry)
    (now : String) (cache : MarketCache)
    (hwf : categoriesWellFormed cache.categories) :
    (update_market_cache avail series regional_series skw_scores trending now cache).1 = avail
    ∧ (avail = true →
      (update_market_cache avail series regional_series skw_scores trending now
        cache).2.last_updated = some now) := by
  cases avail with
  | false => simp [update_market_cache]
  | true =>
    have hloop := updateCategoriesLoop_wf (fetch_craft_trends true series) now
      craft_keyword_names cache.categories hwf
    rcases he : updateCategoriesLoop (fetch_craft_trends true series) now
      craft_keyword_names cache.categories with ⟨ok, cats⟩
    rw [he] at hloop
    simp only at hloop
    rw [update_market_cache]
    simp [he, hloop.1]

/-- Witness for C3 on the seeded default cache: with the provider available
the refresh returns `true` and stamps `last_updated`; with it unavailable
the refresh returns `false`. -/
theorem refresh_reports_failure_witness :
    ((update_market_cache true (fun _ => none) (fun _ => none) none [] "t1"
        (get_default_cache "t0")).1 = true
      ∧ (update_market_cache true (fun _ => none) (fun _ => none) none [] "t1"
          (get_default_cache "t0")).2.last_updated = some "t1")
    ∧ (update_market_cache false (fun _ => none) (fun _ => none) none [] "t1"
        (get_default_cache "t0")).1 = false := by
  have h1 := refresh_reports_failure_only_when_provider_unreachable true (fun _ => none)
    (fun _ => none) none [] "t1" (get_default_cache "t0")
    (by unfold categoriesWellFormed; decide)
  have h2 := refresh_reports_failure_only_when_provider_unreachable false (fun _ => none)
    (fun _ => none) none [] "t1" (get_default_cache "t0")
    (by unfold categoriesWellFormed; decide)
  exact ⟨⟨h1.1, h1.2 rfl⟩, h2.1⟩

/-- C7: in a refresh cycle, the adjustment of one cached category whose
fetched direction is `rising` replaces its stored `priceRangeHigh` by
exactly 1.1 times the current stored value, and `falling` by exactly 0.95
times it (so ceilings compound across refreshes); in both cases the
category's `priceRangeLow` is kept and no other category's record is
touched by that category's adjustment. -/
theorem refresh_band_adjustment (t : TrendData) (now : String)
    (cats : List (String × CategoryMarketData)) (cat : String)
    (rec : CategoryMarketData) (lo hi : ℚ)
    (hlk : List.lookup cat cats = some rec) (hr : rec.range = some (lo, hi)) :
    (t.trend_direction = "rising" →
      List.lookup cat (updateOneCategory t now cats cat).2
        = some { rec with
            trend_score := t.trend_score
            trend_direction := t.trend_direction
            range := some (lo, hi * 1.1)
            last_updated := some now })
    ∧ (t.trend_direction = "falling" →
      List.lookup cat (updateOneCategory t now cats cat).2
        = some { rec with
            trend_score := t.trend_score
            trend_direction := t.trend_direction
            range := some (lo, hi * 0.95)
            last_updated := some now })
    ∧ ∀ other, other ≠ cat →
      List.lookup other (updateOneCategory t now cats cat).2 = List.lookup other cats := by
  refine ⟨fun hdir => ?_, fun hdir => ?_, fun other hne => ?_⟩
  · rw [updateOneCategory]
    simp only [hlk, applyTrendToRecord, hr, hdir]
    simp only [beq_self_eq_true, if_true]
    exact lookup_updateEntry_self _ hlk
  · rw [updateOneCategory]
    simp only [hlk, applyTrendToRecord, hr, hdir]
    norm_num
    exact lookup_updateEntry_self _ hlk
  · rw [updateOneCategory]
    simp only [hlk, applyTrendToRecord, hr]
    split_ifs <;> exact lookup_updateEntry_ne _ _ _ _ hne

/-- Witness for C7: a rising pottery trend on a two-category table lifts the
pottery ceiling from 400 to 400·1.1 and leaves the textile record alone. -/
theorem refresh_band_adjustment_witness :
    List.lookup "pottery" (updateOneCategory ⟨60, "rising"⟩ "t1" twoCatTable "pottery").2
      = some { defaultCategoryRecord 100 400 200.0 "medium" "t0" with
          trend_score := 60
          trend_direction := "rising"
          range := some (100, 400 * 1.1)
          last_updated := some "t1" }
    ∧ List.lookup "textile" (updateOneCategory ⟨60, "rising"⟩ "t1" twoCatTable "pottery").2
      = List.lookup "textile" twoCatTable := by
  have h := refresh_band_adjustment ⟨60, "rising"⟩ "t1" twoCatTable "pottery"
    (defaultCategoryRecord 100 400 200.0 "medium" "t0") 100 400 rfl rfl
  exact ⟨h.1 rfl, h.2.2 "textile" (by decide)⟩

/-- C5 counterexample: for the request (empty description and narrative,
model complexity reply 1.3, month 5, Market Intelligence unavailable) the
validator's exact adjustedPrice is 393.6075, but the emitted
`suggested_price` is 393.61 — the result fields are rounded to two decimals,
so they do not literally equal the validator's adjustedPrice. -/
theorem result_rounding_counterexample :
    (calculate_price fallbackAgent "" emptyStory (some (some 1.3)) 5 0).suggested_price
      = 393.61
    ∧ (validate_with_market_cache
        (raw_price (analyze_heritage_value emptyStory)
          (analyze_complexity "" emptyStory (some (some 1.3)))
          (analyze_market_demand "" emptyStory fallbackAgent.market_intel 5))
        "" emptyStory fallbackAgent.market_cache).adjusted_price = 393.6075
    ∧ (393.61 : ℚ) ≠ 393.6075 := by
  have hh : analyze_heritage_value emptyStory = 0 := by
    simp +decide only [analyze_heritage_value, emptyStory]
    norm_num
  have htc : technique_count "" emptyStory = 0 := by decide
  have hc : analyze_complexity "" emptyStory (some (some 1.3)) = 1.3 := by
    simp only [analyze_complexity, htc]
    norm_num [min_def, max_def]
  have hrg : List.find? (fun p => strContains (strLower "") p.1) regional_demand = none := by
    decide
  have hse : List.find? (fun p => p.2.2.contains 5) seasonal_trends_fallback = none := by
    decide
  have hm : analyze_market_demand "" emptyStory none 5 = 5 := by
    simp only [analyze_market_demand, emptyStory, hrg, hse]
    norm_num [min_def]
  have hraw : raw_price 0 1.3 5 = 393.6075 := by
    simp only [raw_price, artisan_markup, price_multiplier, combined_score]
    norm_num
  have hlk : List.lookup (detect_craft_category "" emptyStory)
      (init_market_cache "2025-01-01T00:00:00")
      = some (defaultCategoryRecord 100 400 200.0 "high" "2025-01-01T00:00:00") := rfl
  have hval : (validate_with_market_cache 393.6075 "" emptyStory
      (init_market_cache "2025-01-01T00:00:00")).adjusted_price = 393.6075 := by
    simp only [validate_with_market_cache, validate_core, hlk, defaultCategoryRecord]
    norm_num
  refine ⟨?_, ?_, by norm_num⟩
  · show round2 (validate_with_market_cache
        (raw_price (analyze_heritage_value emptyStory)
          (analyze_complexity "" emptyStory (some (some 1.3)))
          (analyze_market_demand "" emptyStory fallbackAgent.market_intel 5))
        "" emptyStory fallbackAgent.market_cache).adjusted_price = 393.61
    simp only [fallbackAgent, hh, hc, hm, hraw, hval]
    norm_num [round2]
  · simp only [fallbackAgent, hh, hc, hm, hraw, hval]

/-- C5 (amended): for every pricing request, the emitted `suggested_price`
is the validator's adjustedPrice (never the raw weighted price) rounded to
two decimals, the emitted `price_range` is adjustedPrice·0.9 and
adjustedPrice·1.1 each rounded to two decimals, and `success_probability`
is `min(95, max(50, 50 + combinedScore·4.5))` rounded to two decimals —
the source rounds every numeric result field with `round(x, 2)`. -/
theorem final_price_is_validated_price (agent : AgentState) (product_description : String)
    (storyteller_output : StoryOutput) (model_reply : Option (Option ℚ))
    (current_month : ℕ) (material_cost : ℚ) :
    (calculate_price agent product_description storyteller_output model_reply current_month
        material_cost).suggested_price
      = round2 (validate_with_market_cache
          (raw_price (analyze_heritage_value storyteller_output)
            (analyze_complexity product_description storyteller_output model_reply)
            (analyze_market_demand product_description storyteller_output agent.market_intel
              current_month))
          product_description storyteller_output agent.market_cache).adjusted_price
    ∧ (calculate_price agent product_description storyteller_output model_reply current_month
        material_cost).price_range
      = ⟨round2 ((validate_with_market_cache
            (raw_price (analyze_heritage_value storyteller_output)
              (analyze_complexity product_description storyteller_output model_reply)
              (analyze_market_demand product_description storyteller_output agent.market_intel
                current_month))
            product_description storyteller_output agent.market_cache).adjusted_price * 0.9),
         round2 ((validate_with_market_cache
            (raw_price (analyze_heritage_value storyteller_output)
              (analyze_complexity product_description storyteller_output model_reply)
              (analyze_market_demand product_description storyteller_output agent.market_intel
                current_month))
            product_description storyteller_output agent.market_cache).adjusted_price * 1.1)⟩
    ∧ (calculate_price agent product_description storyteller_output model_reply current_month
        material_cost).success_probability
      = round2 (min 95 (max 50 (50 + combined_score (analyze_heritage_value storyteller_output)
          (analyze_complexity product_description storyteller_output model_reply)
          (analyze_market_demand product_description storyteller_output agent.market_intel
            current_month) * 4.5))) := by
  refine ⟨rfl, rfl, ?_⟩
  show round2 (min 95.0 (max 50.0 (50.0 + combined_score (analyze_heritage_value
      storyteller_output) (analyze_complexity product_description storyteller_output model_reply)
      (analyze_market_demand product_description storyteller_output agent.market_intel
        current_month) * 4.5))) = _
  norm_num

/-- Witness for C10: a jewelry description detects `jewelry`, a tracked
name, and validation against the seeded default cache is not
`no_market_data`. -/
theorem detect_category_covered_witness :
    detect_craft_category "silver filigree necklace" emptyStory ∈ craft_keyword_names
    ∧ (validate_with_market_cache 250 "silver filigree necklace" emptyStory
        (get_default_cache "t0").categories).adjustment_reason ≠ "no_market_data" := by
  have h := detect_category_covered_by_default_cache "silver filigree necklace" emptyStory
  exact ⟨h.1, (h.2 250 "t0").1⟩
